import Mathlib

/-!
Verification of the kinematic core of the Theo Jansen linkage simulator
(`simulador_jansen_gui.py`).

The embedding models:
* `Longitudes` — the link-length dictionary `L` with keys a..h, m, n;
* `Mecanismo` — the `MecanismoJansen` object state (`L`, `escala`, `L_scaled`);
* `resolver_cinematica` — the joint solver, parameterised over an abstract
  root-finder `rf` standing for `scipy.optimize.fsolve` (which is an external
  library: `rf` returns `none` exactly when `fsolve` would raise an exception,
  and `some p` for the point it returns, converged or not);
* `calcular_trayectoria` — the trajectory sweep, parameterised over the
  per-angle solve (so a `none` models the `except` branch appending NaN);
* `longitud_paso` / `altura_paso` — the gait metrics computed in
  `actualizar_informacion`, with `Option` playing the role of NaN
  (`none` = NaN, the undefined marker).

Real numbers replace IEEE floats, the standard idealisation for this numeric
code.
-/

/-- A planar point: the pair of real coordinates used throughout the solver. -/
abbrev Punto : Type := ℝ × ℝ

/-- Euclidean norm of a planar vector, as `np.linalg.norm` computes it. -/
noncomputable def norma (p : Punto) : ℝ := Real.sqrt (p.1 ^ 2 + p.2 ^ 2)

/-- The link-length dictionary `self.L`: keys a..h plus the fixed-point
offsets m, n (all in mm). -/
structure Longitudes where
  a : ℝ
  b : ℝ
  c : ℝ
  d : ℝ
  e : ℝ
  f : ℝ
  g : ℝ
  h : ℝ
  m : ℝ
  n : ℝ

/-- A key of the length dictionary (a link identifier). -/
inductive Clave where
  | a | b | c | d | e | f | g | h | m | n
deriving DecidableEq

/-- Update one entry of the length dictionary (`self.L[nombre] = valor`). -/
def setClave (L : Longitudes) : Clave → ℝ → Longitudes
  | Clave.a, v => ⟨v, L.b, L.c, L.d, L.e, L.f, L.g, L.h, L.m, L.n⟩
  | Clave.b, v => ⟨L.a, v, L.c, L.d, L.e, L.f, L.g, L.h, L.m, L.n⟩
  | Clave.c, v => ⟨L.a, L.b, v, L.d, L.e, L.f, L.g, L.h, L.m, L.n⟩
  | Clave.d, v => ⟨L.a, L.b, L.c, v, L.e, L.f, L.g, L.h, L.m, L.n⟩
  | Clave.e, v => ⟨L.a, L.b, L.c, L.d, v, L.f, L.g, L.h, L.m, L.n⟩
  | Clave.f, v => ⟨L.a, L.b, L.c, L.d, L.e, v, L.g, L.h, L.m, L.n⟩
  | Clave.g, v => ⟨L.a, L.b, L.c, L.d, L.e, L.f, v, L.h, L.m, L.n⟩
  | Clave.h, v => ⟨L.a, L.b, L.c, L.d, L.e, L.f, L.g, v, L.m, L.n⟩
  | Clave.m, v => ⟨L.a, L.b, L.c, L.d, L.e, L.f, L.g, L.h, v, L.n⟩
  | Clave.n, v => ⟨L.a, L.b, L.c, L.d, L.e, L.f, L.g, L.h, L.m, v⟩

/-- `self.L_scaled = {k: v * self.escala for k, v in self.L.items()}`:
every entry multiplied by the scale factor. -/
def escalar (k : ℝ) (L : Longitudes) : Longitudes :=
  ⟨L.a * k, L.b * k, L.c * k, L.d * k, L.e * k,
   L.f * k, L.g * k, L.h * k, L.m * k, L.n * k⟩

/-- The state of a `MecanismoJansen` object: raw lengths, scale factor and the
derived scaled lengths. -/
structure Mecanismo where
  L : Longitudes
  escala : ℝ
  L_scaled : Longitudes

/-- `aplicar_escala`: recompute `L_scaled` from `L` and `escala`. -/
def aplicar_escala (mec : Mecanismo) : Mecanismo :=
  ⟨mec.L, mec.escala, escalar mec.escala mec.L⟩

/-- The canonical Theo Jansen proportions set in `__init__` (mm). -/
def longitudesJansen : Longitudes :=
  ⟨38, 41.5, 39.3, 40.1, 55.8, 39.4, 36.7, 65.7, 7.8, 25⟩

/-- The object built by `MecanismoJansen.__init__`: canonical lengths,
scale 5.0, then `aplicar_escala`. -/
def mecanismoInicial : Mecanismo :=
  aplicar_escala ⟨longitudesJansen, 5, longitudesJansen⟩

/-- `actualizar_longitud(nombre, valor)`: store the value (unconditionally)
and reapply the scale. -/
def actualizar_longitud (mec : Mecanismo) (k : Clave) (v : ℝ) : Mecanismo :=
  aplicar_escala ⟨setClave mec.L k v, mec.escala, mec.L_scaled⟩

/-- `SimuladorJansenGUI.actualizar_escala(valor)`: store the scale
(unconditionally) and reapply it. -/
def actualizar_escala (mec : Mecanismo) (v : ℝ) : Mecanismo :=
  aplicar_escala ⟨mec.L, v, mec.L_scaled⟩

/-- The joint-position snapshot returned by one solve call: the two fixed
points, the crank tip and the three solved joints.  `none` is the undefined
marker (a NaN point); the code itself always stores concrete points. -/
structure Snapshot where
  A : Option Punto
  B : Option Punto
  C : Option Punto
  D : Option Punto
  E : Option Punto
  F : Option Punto

/-- An abstract multivariate root-finder standing for `scipy.optimize.fsolve`:
it receives the residual function and the initial guess and returns the point
it ends on (converged or not); `none` models `fsolve` raising an exception. -/
def RootFinder : Type := (Punto → Punto) → Punto → Option Punto

/-- Fixed point A, the crank origin. -/
def puntoA : Punto := ((0 : ℝ), (0 : ℝ))

/-- Fixed point B at the configured offsets. -/
def puntoB (L : Longitudes) : Punto := (L.m, L.n)

/-- Crank tip `C = A + (a·cos θ, a·sin θ)` — closed form. -/
noncomputable def puntoC (L : Longitudes) (θ : ℝ) : Punto :=
  puntoA + (L.a * Real.cos θ, L.a * Real.sin θ)

/-- Residuals of the system for joint D: `|D−C| − b` and `|D−B| − c`. -/
noncomputable def ecuaciones_D (C B : Punto) (L : Longitudes) : Punto → Punto :=
  fun p => (norma (p - C) - L.b, norma (p - B) - L.c)

/-- Residuals of the system for joint E: `|E−D| − d` and `|E−B| − e`. -/
noncomputable def ecuaciones_E (D B : Punto) (L : Longitudes) : Punto → Punto :=
  fun p => (norma (p - D) - L.d, norma (p - B) - L.e)

/-- Residuals of the system for joint F: `|F−E| − f` and `|F−D| − g`. -/
noncomputable def ecuaciones_F (E D : Punto) (L : Longitudes) : Punto → Punto :=
  fun p => (norma (p - E) - L.f, norma (p - D) - L.g)

/-- `MecanismoJansen.resolver_cinematica(theta)` over the scaled lengths `L`:
the fixed pipeline A, B, C closed form, then D, E, F by sequential root
finding, each seeded from the previous solution.  A `none` from the root
finder (an exception in `fsolve`) propagates and aborts the whole call, as
the uncaught Python exception would; otherwise whatever point the root finder
returned is stored, with no convergence or residual check. -/
noncomputable def resolver_cinematica (rf : RootFinder) (L : Longitudes)
    (θ : ℝ) : Option Snapshot :=
  let A := puntoA
  let B := puntoB L
  let C := puntoC L θ
  match rf (ecuaciones_D C B L) (C + (L.b, 0)) with
  | none => none
  | some D =>
    match rf (ecuaciones_E D B L) (D + (L.d, -L.d / 2)) with
    | none => none
    | some E =>
      match rf (ecuaciones_F E D L) (E + (L.f, -L.f)) with
      | none => none
      | some F => some ⟨some A, some B, some C, some D, some E, some F⟩

/-- `np.linspace(a, b, n)`: `n` evenly spaced values from `a` to `b`,
both endpoints included (the numpy default `endpoint=True`). -/
noncomputable def linspace (a b : ℝ) (n : ℕ) : List ℝ :=
  (List.range n).map fun i : ℕ => a + (b - a) * (i : ℝ) / ((n : ℝ) - 1)

/-- `MecanismoJansen.calcular_trayectoria(n_puntos)`, parameterised over the
per-angle solve: for each angle of `linspace 0 2π n`, append the foot point
of the snapshot, or the NaN entry (`none`) when the solve raises. -/
noncomputable def calcular_trayectoria (solve : ℝ → Option Snapshot)
    (n : ℕ) : List (Option Punto) :=
  (linspace 0 (2 * Real.pi) n).map fun θ => (solve θ).bind Snapshot.F

/-- The trajectory of a mechanism state: `calcular_trayectoria` calling
`self.resolver_cinematica` on the current scaled lengths. -/
noncomputable def trayectoria_de (rf : RootFinder) (mec : Mecanismo)
    (n : ℕ) : List (Option Punto) :=
  calcular_trayectoria (fun θ => resolver_cinematica rf mec.L_scaled θ) n

/-- The method call `self.calcular_trayectoria(n)` as a state transformer:
the body assigns nothing to `self`, so the state component is returned
unchanged alongside the computed list. -/
noncomputable def calcular_trayectoria_met (rf : RootFinder) (mec : Mecanismo)
    (n : ℕ) : Mecanismo × List (Option Punto) :=
  (mec, trayectoria_de rf mec n)

/-- x-coordinates of the defined (non-NaN) trajectory samples. -/
def xsDefinidas (tray : List (Option Punto)) : List ℝ :=
  (tray.filterMap id).map Prod.fst

/-- y-coordinates of the defined (non-NaN) trajectory samples. -/
def ysDefinidas (tray : List (Option Punto)) : List ℝ :=
  (tray.filterMap id).map Prod.snd

/-- `np.nanmax` over a column: maximum of the defined entries, NaN (`none`)
when no defined entry exists. -/
noncomputable def nanmax : List ℝ → Option ℝ
  | [] => none
  | x :: xs => some (xs.foldl max x)

/-- `np.nanmin` over a column: minimum of the defined entries, NaN (`none`)
when no defined entry exists. -/
noncomputable def nanmin : List ℝ → Option ℝ
  | [] => none
  | x :: xs => some (xs.foldl min x)

/-- `longitud_paso = (np.nanmax(x) − np.nanmin(x)) / 10` from
`actualizar_informacion` (mm to cm); NaN (`none`) propagates. -/
noncomputable def longitud_paso (tray : List (Option Punto)) : Option ℝ :=
  match nanmax (xsDefinidas tray), nanmin (xsDefinidas tray) with
  | some M, some mn => some ((M - mn) / 10)
  | _, _ => none

/-- `altura_paso = np.nanmax(y) / 10` from `actualizar_informacion`
(mm to cm); NaN (`none`) propagates. -/
noncomputable def altura_paso (tray : List (Option Punto)) : Option ℝ :=
  match nanmax (ysDefinidas tray) with
  | some M => some (M / 10)
  | none => none

/-- The state built by creating a mechanism with given raw lengths and scale
(constructor followed by `aplicar_escala`). -/
def mecanismoCon (L : Longitudes) (esc : ℝ) : Mecanismo :=
  aplicar_escala ⟨L, esc, L⟩

/-- Spec name for the crank length: key `a`. -/
def crank_length (L : Longitudes) : ℝ := L.a

/-- Spec name for coupler 1: key `b`. -/
def coupler1_length (L : Longitudes) : ℝ := L.b

/-- Spec name for coupler 2: key `c`. -/
def coupler2_length (L : Longitudes) : ℝ := L.c

/-- Spec name for coupler 3: key `d`. -/
def coupler3_length (L : Longitudes) : ℝ := L.d

/-- Spec name for rocker 1: key `e`. -/
def rocker1_length (L : Longitudes) : ℝ := L.e

/-- Spec name for rocker 2: key `f`. -/
def rocker2_length (L : Longitudes) : ℝ := L.f

/-- Spec name for ternary 1: key `g`. -/
def ternary1_length (L : Longitudes) : ℝ := L.g

/-- Spec name for ternary 2: key `h`. -/
def ternary2_length (L : Longitudes) : ℝ := L.h

/-- Spec name for the horizontal fixed-point offset: key `m`. -/
def offset_x (L : Longitudes) : ℝ := L.m

/-- Spec name for the vertical fixed-point offset: key `n`. -/
def offset_y (L : Longitudes) : ℝ := L.n

/-- The solve pipeline exactly as §4.2 of the specification words it:
A = (0,0); B = (offset_x, offset_y); C = A + (crank·cos θ, crank·sin θ);
D solves |D−C| = coupler1 and |D−B| = coupler2 from guess C + (coupler1, 0);
E solves |E−D| = coupler3 and |E−B| = rocker1 from guess
D + (coupler3, −coupler3/2); F solves |F−E| = rocker2 and |F−D| = ternary1
from guess E + (rocker2, −rocker2); each step anchored on the previous
solution. -/
noncomputable def pipelineSpec (rf : RootFinder) (L : Longitudes)
    (θ : ℝ) : Option Snapshot :=
  let A : Punto := ((0 : ℝ), (0 : ℝ))
  let B : Punto := (offset_x L, offset_y L)
  let C : Punto := A + (crank_length L * Real.cos θ, crank_length L * Real.sin θ)
  match rf (fun p => (norma (p - C) - coupler1_length L,
      norma (p - B) - coupler2_length L)) (C + (coupler1_length L, 0)) with
  | none => none
  | some D =>
    match rf (fun p => (norma (p - D) - coupler3_length L,
        norma (p - B) - rocker1_length L))
        (D + (coupler3_length L, -coupler3_length L / 2)) with
    | none => none
    | some E =>
      match rf (fun p => (norma (p - E) - rocker2_length L,
          norma (p - D) - ternary1_length L))
          (E + (rocker2_length L, -rocker2_length L)) with
      | none => none
      | some F => some ⟨some A, some B, some C, some D, some E, some F⟩

/-- A root-finder that simply answers with the initial guess: used to
instantiate theorems at a concrete solver. -/
def rfGuess : RootFinder := fun _ g => some g

/-- A degenerate root-finder that always answers the origin — a stand-in for
`fsolve` ending far from a root (non-convergence). -/
def rfGarbage : RootFinder := fun _ _ => some ((0 : ℝ), (0 : ℝ))

/-- A per-angle solve that reports the crank angle as the foot's x-coordinate:
used to make the sampled angles observable in the trajectory. -/
noncomputable def solveEco : ℝ → Option Snapshot := fun θ =>
  some ⟨some puntoA, some puntoA, some puntoA, some puntoA, some puntoA,
    some (θ, 0)⟩

/-- A per-angle solve that raises exactly at angle 0: used to exercise the
failed-sample path of the sweep. -/
noncomputable def solveFalla : ℝ → Option Snapshot := fun θ =>
  if θ = 0 then none
  else some ⟨some puntoA, some puntoA, some puntoA, some puntoA, some puntoA,
    some puntoA⟩

/-- Folding `max` over a list lands on the seed or a list element. -/
lemma foldl_max_mem (xs : List ℝ) : ∀ x : ℝ, xs.foldl max x ∈ x :: xs := by
  induction xs with
  | nil => intro x; simp
  | cons z zs ih =>
    intro x
    rw [List.foldl_cons]
    rcases List.mem_cons.mp (ih (max x z)) with h1 | h1
    · rcases max_choice x z with hm | hm
      · rw [h1, hm]; simp
      · rw [h1, hm]; simp
    · simp [List.mem_cons_of_mem, h1]

/-- Folding `max` bounds the seed and every list element from above. -/
lemma le_foldl_max (xs : List ℝ) : ∀ x : ℝ, ∀ y ∈ x :: xs, y ≤ xs.foldl max x := by
  induction xs with
  | nil => intro x y hy; simp at hy; simp [hy]
  | cons z zs ih =>
    intro x y hy
    rw [List.foldl_cons]
    rcases List.mem_cons.mp hy with h1 | h1
    · rw [h1]
      exact le_trans (le_max_left x z)
        (ih (max x z) (max x z) (List.mem_cons_self _ _))
    · rcases List.mem_cons.mp h1 with h2 | h2
      · rw [h2]
        exact le_trans (le_max_right x z)
          (ih (max x z) (max x z) (List.mem_cons_self _ _))
      · exact ih (max x z) y (List.mem_cons_of_mem _ h2)

/-- Folding `min` over a list lands on the seed or a list element. -/
lemma foldl_min_mem (xs : List ℝ) : ∀ x : ℝ, xs.foldl min x ∈ x :: xs := by
  induction xs with
  | nil => intro x; simp
  | cons z zs ih =>
    intro x
    rw [List.foldl_cons]
    rcases List.mem_cons.mp (ih (min x z)) with h1 | h1
    · rcases min_choice x z with hm | hm
      · rw [h1, hm]; simp
      · rw [h1, hm]; simp
    · simp [List.mem_cons_of_mem, h1]

/-- Folding `min` bounds the seed and every list element from below. -/
lemma foldl_min_le (xs : List ℝ) : ∀ x : ℝ, ∀ y ∈ x :: xs, xs.foldl min x ≤ y := by
  induction xs with
  | nil => intro x y hy; simp at hy; simp [hy]
  | cons z zs ih =>
    intro x y hy
    rw [List.foldl_cons]
    rcases List.mem_cons.mp hy with h1 | h1
    · rw [h1]
      exact le_trans (ih (min x z) (min x z) (List.mem_cons_self _ _))
        (min_le_left x z)
    · rcases List.mem_cons.mp h1 with h2 | h2
      · rw [h2]
        exact le_trans (ih (min x z) (min x z) (List.mem_cons_self _ _))
          (min_le_right x z)
      · exact ih (min x z) y (List.mem_cons_of_mem _ h2)

/-- `nanmax` answers a genuine maximum: a member bounding every member. -/
lemma nanmax_spec (xs : List ℝ) (M : ℝ) (h : nanmax xs = some M) :
    M ∈ xs ∧ ∀ y ∈ xs, y ≤ M := by
  cases xs with
  | nil => simp [nanmax] at h
  | cons x l =>
    simp only [nanmax, Option.some.injEq] at h
    subst h
    exact ⟨foldl_max_mem l x, fun y hy => le_foldl_max l x y hy⟩

/-- `nanmin` answers a genuine minimum: a member bounded by every member. -/
lemma nanmin_spec (xs : List ℝ) (M : ℝ) (h : nanmin xs = some M) :
    M ∈ xs ∧ ∀ y ∈ xs, M ≤ y := by
  cases xs with
  | nil => simp [nanmin] at h
  | cons x l =>
    simp only [nanmin, Option.some.injEq] at h
    subst h
    exact ⟨foldl_min_mem l x, fun y hy => foldl_min_le l x y hy⟩

/-- `nanmax` is NaN exactly on the empty (all-NaN) column. -/
lemma nanmax_eq_none (xs : List ℝ) : nanmax xs = none ↔ xs = [] := by
  cases xs <;> simp [nanmax]

/-- `nanmin` is NaN exactly on the empty (all-NaN) column. -/
lemma nanmin_eq_none (xs : List ℝ) : nanmin xs = none ↔ xs = [] := by
  cases xs <;> simp [nanmin]

/-- The crank angle enters the solve only through `cos` and `sin`, so the
whole solve is 2π-periodic. -/
lemma resolver_periodico (rf : RootFinder) (L : Longitudes) (θ : ℝ) :
    resolver_cinematica rf L (θ + 2 * Real.pi) = resolver_cinematica rf L θ := by
  simp only [resolver_cinematica, puntoC, Real.cos_add_two_pi,
    Real.sin_add_two_pi]

/-- The i-th sampled angle of `linspace`. -/
lemma linspace_getElem (a b : ℝ) (n i : ℕ) (hi : i < n) :
    (linspace a b n)[i]? = some (a + (b - a) * i / ((n : ℝ) - 1)) := by
  rw [linspace, List.getElem?_map, List.getElem?_range hi, Option.map_some']

/-- The sweep always produces one entry per requested sample. -/
lemma calcular_trayectoria_length (solve : ℝ → Option Snapshot) (n : ℕ) :
    (calcular_trayectoria solve n).length = n := by
  simp [calcular_trayectoria, linspace]

/-- The i-th entry of the sweep is the foot of the solve at the i-th angle. -/
lemma calcular_trayectoria_getElem (solve : ℝ → Option Snapshot) (n i : ℕ)
    (hi : i < n) :
    (calcular_trayectoria solve n)[i]?
      = some ((solve (2 * Real.pi * i / ((n : ℝ) - 1))).bind Snapshot.F) := by
  rw [calcular_trayectoria, List.getElem?_map, linspace_getElem _ _ _ _ hi,
    Option.map_some']
  have harg : (0 : ℝ) + (2 * Real.pi - 0) * i / ((n : ℝ) - 1)
      = 2 * Real.pi * i / ((n : ℝ) - 1) := by ring
  rw [harg]

/-- Claim C2: for every crank angle and scaled-length set, the solver computes
the snapshot by exactly the fixed pipeline of §4.2 — A = (0,0),
B = (offset_x, offset_y), C closed form, then D, E, F by root-finding on the
stated circle systems from the stated initial guesses, each step anchored on
the previous step's solution.  The code's pipeline coincides with the
specification's pipeline for every root-finder, length set and angle. -/
theorem claim_C2_pipeline (rf : RootFinder) (L : Longitudes) (θ : ℝ) :
    resolver_cinematica rf L θ = pipelineSpec rf L θ := rfl

/-- Claim C7: solving at crank angle θ + 2π yields the same snapshot as
solving at θ, for every θ in [0, 2π) and every fixed configuration. -/
theorem claim_C7_periodicidad (rf : RootFinder) (L : Longitudes) (θ : ℝ)
    (hθ : 0 ≤ θ ∧ θ < 2 * Real.pi) :
    resolver_cinematica rf L (θ + 2 * Real.pi) = resolver_cinematica rf L θ :=
  resolver_periodico rf L θ

/-- Witness for C7 at θ = 0 with the guess-echoing root-finder and the
canonical scaled lengths. -/
theorem claim_C7_witness :
    (0 ≤ (0 : ℝ) ∧ (0 : ℝ) < 2 * Real.pi)
    ∧ resolver_cinematica rfGuess mecanismoInicial.L_scaled (0 + 2 * Real.pi)
        = resolver_cinematica rfGuess mecanismoInicial.L_scaled 0 :=
  ⟨⟨le_refl 0, by positivity⟩,
    claim_C7_periodicidad rfGuess mecanismoInicial.L_scaled 0
      ⟨le_refl 0, by positivity⟩⟩

/-- Claim C9: the trajectory sweep is deterministic and stateless — running
the method twice in sequence leaves the mechanism state unchanged and
produces identical sequences (the method body never writes to the object). -/
theorem claim_C9_determinismo (rf : RootFinder) (mec : Mecanismo) (n : ℕ) :
    (calcular_trayectoria_met rf mec n).2
        = (calcular_trayectoria_met rf
            (calcular_trayectoria_met rf mec n).1 n).2
    ∧ (calcular_trayectoria_met rf mec n).1 = mec
    ∧ (calcular_trayectoria_met rf
        (calcular_trayectoria_met rf mec n).1 n).1 = mec :=
  ⟨rfl, rfl, rfl⟩

/-- Claim C10: the solver never reads the ternary2 length `h`, so two
configurations that are identical except in `h` produce identical snapshots
at every crank angle and identical trajectory sample sets. -/
theorem claim_C10_independencia_h (rf : RootFinder) (L : Longitudes)
    (v esc θ : ℝ) (n : ℕ) :
    resolver_cinematica rf (mecanismoCon (setClave L Clave.h v) esc).L_scaled θ
        = resolver_cinematica rf (mecanismoCon L esc).L_scaled θ
    ∧ trayectoria_de rf (mecanismoCon (setClave L Clave.h v) esc) n
        = trayectoria_de rf (mecanismoCon L esc) n :=
  ⟨rfl, rfl⟩

/-- Claim C4 (amended): the setters perform no validation at all — they
unconditionally store the given value (finite-positive or not) and recompute
the scaled lengths; no error is reported and the stored configuration is
mutated. -/
theorem claim_C4_amended (mec : Mecanismo) (k : Clave) (v : ℝ) :
    (actualizar_longitud mec k v).L = setClave mec.L k v
    ∧ (actualizar_longitud mec k v).escala = mec.escala
    ∧ (actualizar_longitud mec k v).L_scaled
        = escalar mec.escala (setClave mec.L k v)
    ∧ (actualizar_escala mec v).L = mec.L
    ∧ (actualizar_escala mec v).escala = v
    ∧ (actualizar_escala mec v).L_scaled = escalar v mec.L :=
  ⟨rfl, rfl, rfl, rfl, rfl, rfl⟩

/-- Counterexample to C4 as stated: storing the non-positive value −1 for the
crank length, or −1 for the scale, mutates the stored configuration instead
of leaving it unchanged. -/
theorem claim_C4_counterexample :
    (actualizar_longitud mecanismoInicial Clave.a (-1)).L.a = -1
    ∧ mecanismoInicial.L.a = 38
    ∧ ((-1 : ℝ) ≠ 38)
    ∧ (actualizar_escala mecanismoInicial (-1)).escala = -1
    ∧ mecanismoInicial.escala = 5
    ∧ ((-1 : ℝ) ≠ 5) :=
  ⟨rfl, rfl, by norm_num, rfl, rfl, by norm_num⟩

/-- Claim C8: solving with scale factor k on raw lengths L gives the same
snapshot as solving with scale factor 1 on raw lengths k·L (the two scaled
length sets coincide, so the snapshots are identical), for every positive k
and every angle. -/
theorem claim_C8_escala (rf : RootFinder) (L : Longitudes) (k θ : ℝ)
    (hk : 0 < k) :
    resolver_cinematica rf (mecanismoCon L k).L_scaled θ
      = resolver_cinematica rf (mecanismoCon (escalar k L) 1).L_scaled θ := by
  have h2 : escalar 1 (escalar k L) = escalar k L := by
    cases L
    simp [escalar]
  show resolver_cinematica rf (escalar k L) θ
      = resolver_cinematica rf (escalar 1 (escalar k L)) θ
  rw [h2]

/-- Witness for C8 at k = 2, θ = 0 with the canonical raw lengths and the
guess-echoing root-finder. -/
theorem claim_C8_witness :
    (0 : ℝ) < 2
    ∧ resolver_cinematica rfGuess (mecanismoCon longitudesJansen 2).L_scaled 0
        = resolver_cinematica rfGuess
            (mecanismoCon (escalar 2 longitudesJansen) 1).L_scaled 0 :=
  ⟨by norm_num,
    claim_C8_escala rfGuess longitudesJansen 2 0 (by norm_num)⟩

/-- Claim C6: failure of an individual sample's solve does not abort the
sweep — the sweep still returns the full-length sequence, records an
undefined entry at the failed index, and records the foot normally at
successful indices. -/
theorem claim_C6_no_aborta (solve : ℝ → Option Snapshot) (n i : ℕ)
    (hi : i < n) :
    (calcular_trayectoria solve n).length = n
    ∧ (solve (2 * Real.pi * i / ((n : ℝ) - 1)) = none →
        (calcular_trayectoria solve n)[i]? = some none)
    ∧ (∀ s, solve (2 * Real.pi * i / ((n : ℝ) - 1)) = some s →
        (calcular_trayectoria solve n)[i]? = some s.F) := by
  refine ⟨calcular_trayectoria_length solve n, ?_, ?_⟩
  · intro hnone
    rw [calcular_trayectoria_getElem solve n i hi, hnone]
    rfl
  · intro s hs
    rw [calcular_trayectoria_getElem solve n i hi, hs]
    rfl

/-- Witness for C6: a solve that raises exactly at angle 0, swept with two
samples — the sweep still has length 2 and entry 0 is the undefined marker. -/
theorem claim_C6_witness :
    (calcular_trayectoria solveFalla 2).length = 2
    ∧ (calcular_trayectoria solveFalla 2)[0]? = some none := by
  have h := claim_C6_no_aborta solveFalla 2 0 (by norm_num)
  refine ⟨h.1, h.2.1 ?_⟩
  have harg : 2 * Real.pi * ((0 : ℕ) : ℝ) / (((2 : ℕ) : ℝ) - 1) = 0 := by
    norm_num
  rw [harg, solveFalla]
  simp

/-- Claim C3 (amended): the sweep returns exactly `count` entries, one per
angle, in increasing-angle order, but the angles are `2π·i/(count−1)` for
i = 0..count−1 — `np.linspace` with its default includes the endpoint 2π, so
the span is [0, 2π] with the endpoint duplicated, not [0, 2π). -/
theorem claim_C3_amended (solve : ℝ → Option Snapshot) (n : ℕ) :
    (calcular_trayectoria solve n).length = n
    ∧ (∀ i, i < n → (calcular_trayectoria solve n)[i]?
          = some ((solve (2 * Real.pi * i / ((n : ℝ) - 1))).bind Snapshot.F))
    ∧ (2 ≤ n → ∀ i j : ℕ, i < j → j < n →
          2 * Real.pi * i / ((n : ℝ) - 1)
            < 2 * Real.pi * j / ((n : ℝ) - 1)) := by
  refine ⟨calcular_trayectoria_length solve n,
    fun i hi => calcular_trayectoria_getElem solve n i hi,
    fun hn i j hij hj => ?_⟩
  have hden : (0 : ℝ) < (n : ℝ) - 1 := by
    have h2 : (2 : ℝ) ≤ (n : ℝ) := by exact_mod_cast hn
    linarith
  apply (div_lt_div_iff_of_pos_right hden).mpr
  have hcast : (i : ℝ) < (j : ℝ) := by exact_mod_cast hij
  have hpi : (0 : ℝ) < 2 * Real.pi := by positivity
  exact mul_lt_mul_of_pos_left hcast hpi

/-- Witness for C3 (amended) at the echo solve with two samples. -/
theorem claim_C3_witness :
    (calcular_trayectoria solveEco 2).length = 2
    ∧ 2 * Real.pi * ((0 : ℕ) : ℝ) / (((2 : ℕ) : ℝ) - 1)
        < 2 * Real.pi * ((1 : ℕ) : ℝ) / (((2 : ℕ) : ℝ) - 1)
    ∧ (calcular_trayectoria solveEco 2)[0]? = some (some ((0 : ℝ), (0 : ℝ))) := by
  have h := claim_C3_amended solveEco 2
  refine ⟨h.1, h.2.2 (by norm_num) 0 1 (by norm_num) (by norm_num), ?_⟩
  have h0 := h.2.1 0 (by norm_num)
  rw [show 2 * Real.pi * ((0 : ℕ) : ℝ) / (((2 : ℕ) : ℝ) - 1) = 0 by norm_num]
    at h0
  rw [h0, solveEco]
  simp

/-- Counterexample to C3 as stated: with count = 2 the sampled angles are
[0, 2π] — the endpoint 2π is included, not excluded, so the span is not
[0, 2π); moreover, with the actual solver the first and last entries
duplicate one another. -/
theorem claim_C3_counterexample :
    linspace 0 (2 * Real.pi) 2 = [0, 2 * Real.pi]
    ∧ ¬ (2 * Real.pi < 2 * Real.pi)
    ∧ calcular_trayectoria solveEco 2
        = [some ((0 : ℝ), (0 : ℝ)), some (2 * Real.pi, 0)]
    ∧ (trayectoria_de rfGuess mecanismoInicial 2)[0]?
        = (trayectoria_de rfGuess mecanismoInicial 2)[1]? := by
  have hlin : linspace 0 (2 * Real.pi) 2 = [0, 2 * Real.pi] := by
    rw [linspace, show List.range 2 = [0, 1] from rfl]
    simp only [List.map_cons, List.map_nil]
    norm_num
  refine ⟨hlin, lt_irrefl _, ?_, ?_⟩
  · rw [calcular_trayectoria, hlin]
    simp only [List.map_cons, List.map_nil, solveEco]
    simp
  · rw [trayectoria_de,
      calcular_trayectoria_getElem _ 2 0 (by norm_num),
      calcular_trayectoria_getElem _ 2 1 (by norm_num)]
    rw [show 2 * Real.pi * ((0 : ℕ) : ℝ) / (((2 : ℕ) : ℝ) - 1) = 0 by norm_num]
    rw [show 2 * Real.pi * ((1 : ℕ) : ℝ) / (((2 : ℕ) : ℝ) - 1)
        = 0 + 2 * Real.pi by norm_num]
    rw [resolver_periodico]

/-- Claim C5 (amended): stepLength is (max x − min x)/10 and stepHeight is
(max y)/10 over the defined samples, both ignoring undefined samples
entirely; they are undefined exactly when zero defined samples exist (with a
single defined sample they are defined: 0 and that sample's y/10). -/
theorem claim_C5_amended (tray : List (Option Punto)) :
    (longitud_paso (none :: tray) = longitud_paso tray
      ∧ altura_paso (none :: tray) = altura_paso tray)
    ∧ (tray.filterMap id = [] →
        longitud_paso tray = none ∧ altura_paso tray = none)
    ∧ (∀ M mn, nanmax (xsDefinidas tray) = some M →
        nanmin (xsDefinidas tray) = some mn →
          longitud_paso tray = some ((M - mn) / 10)
          ∧ M ∈ xsDefinidas tray ∧ mn ∈ xsDefinidas tray
          ∧ ∀ x ∈ xsDefinidas tray, mn ≤ x ∧ x ≤ M)
    ∧ (∀ H, nanmax (ysDefinidas tray) = some H →
          altura_paso tray = some (H / 10)
          ∧ H ∈ ysDefinidas tray ∧ ∀ y ∈ ysDefinidas tray, y ≤ H) := by
  refine ⟨⟨?_, ?_⟩, ?_, ?_, ?_⟩
  · have hx : xsDefinidas (none :: tray) = xsDefinidas tray := by
      simp [xsDefinidas]
    simp only [longitud_paso, hx]
  · have hy : ysDefinidas (none :: tray) = ysDefinidas tray := by
      simp [ysDefinidas]
    simp only [altura_paso, hy]
  · intro hnil
    have hx : xsDefinidas tray = [] := by simp [xsDefinidas, hnil]
    have hy : ysDefinidas tray = [] := by simp [ysDefinidas, hnil]
    constructor
    · simp [longitud_paso, hx, nanmax, nanmin]
    · simp [altura_paso, hy, nanmax]
  · intro M mn hM hmn
    have hsM := nanmax_spec _ _ hM
    have hsmn := nanmin_spec _ _ hmn
    refine ⟨?_, hsM.1, hsmn.1, fun x hx => ⟨hsmn.2 x hx, hsM.2 x hx⟩⟩
    simp only [longitud_paso, hM, hmn]
  · intro H hH
    have hs := nanmax_spec _ _ hH
    refine ⟨?_, hs.1, hs.2⟩
    simp only [altura_paso, hH]

/-- Witness for C5 (amended) on a one-defined-sample trajectory. -/
theorem claim_C5_witness :
    longitud_paso [some ((30 : ℝ), (40 : ℝ))] = some ((30 - 30) / 10)
    ∧ altura_paso [some ((30 : ℝ), (40 : ℝ))] = some (40 / 10) := by
  have h := claim_C5_amended [some ((30 : ℝ), (40 : ℝ))]
  constructor
  · exact (h.2.2.1 30 30 (by simp [xsDefinidas, nanmax])
      (by simp [xsDefinidas, nanmin])).1
  · exact (h.2.2.2 40 (by simp [ysDefinidas, nanmax])).1

/-- Counterexample to C5 as stated: a trajectory with exactly one defined
sample (fewer than 2) still yields defined step metrics — stepLength 0 and
stepHeight y/10 — instead of the claimed undefined result. -/
theorem claim_C5_counterexample :
    (([some ((30 : ℝ), (40 : ℝ)), none] : List (Option Punto)).filterMap
        id).length = 1
    ∧ (1 : ℕ) < 2
    ∧ longitud_paso [some ((30 : ℝ), (40 : ℝ)), none] = some 0
    ∧ altura_paso [some ((30 : ℝ), (40 : ℝ)), none] = some 4
    ∧ some (0 : ℝ) ≠ (none : Option ℝ) := by
  refine ⟨by simp, by norm_num, ?_, ?_, by simp⟩
  · simp [longitud_paso, xsDefinidas, nanmax, nanmin]
  · simp [altura_paso, ysDefinidas, nanmax]
    norm_num

/-- Claim C1 (amended): the solve performs no convergence or residual check
at all — whenever the root-finder returns a point for each joint, those
points are stored in the snapshot as defined joints regardless of their
residual errors; a joint never becomes an undefined marker inside a returned
snapshot, and a root-finder exception instead aborts the entire call (no
partial snapshot with downstream-only undefined joints exists). -/
theorem claim_C1_amended (rf : RootFinder) (L : Longitudes) (θ : ℝ) :
    (∀ pD pE pF,
        rf (ecuaciones_D (puntoC L θ) (puntoB L) L) (puntoC L θ + (L.b, 0))
            = some pD →
        rf (ecuaciones_E pD (puntoB L) L) (pD + (L.d, -L.d / 2)) = some pE →
        rf (ecuaciones_F pE pD L) (pE + (L.f, -L.f)) = some pF →
        resolver_cinematica rf L θ
          = some ⟨some puntoA, some (puntoB L), some (puntoC L θ),
              some pD, some pE, some pF⟩)
    ∧ (rf (ecuaciones_D (puntoC L θ) (puntoB L) L) (puntoC L θ + (L.b, 0))
          = none →
        resolver_cinematica rf L θ = none) := by
  constructor
  · intro pD pE pF hD hE hF
    simp only [resolver_cinematica, hD, hE, hF]
  · intro hD
    simp only [resolver_cinematica, hD]

/-- Witness for C1 (amended): the origin-answering root-finder on the
canonical scaled lengths at θ = 0 gives a snapshot whose solved joints are
all the origin, stored as defined points. -/
theorem claim_C1_witness :
    resolver_cinematica rfGarbage mecanismoInicial.L_scaled 0
      = some ⟨some puntoA, some (puntoB mecanismoInicial.L_scaled),
          some (puntoC mecanismoInicial.L_scaled 0),
          some ((0 : ℝ), (0 : ℝ)), some ((0 : ℝ), (0 : ℝ)),
          some ((0 : ℝ), (0 : ℝ))⟩ :=
  (claim_C1_amended rfGarbage mecanismoInicial.L_scaled 0).1 _ _ _ rfl rfl rfl

/-- Counterexample to C1 as stated: with a root-finder that ends at the
origin (far outside tolerance), the returned snapshot still stores joint D
as a defined point — the residual of the D system at the stored point is
17.5 mm, far beyond the 1e-6·scale tolerance, yet D is not marked
undefined. -/
theorem claim_C1_counterexample :
    (resolver_cinematica rfGarbage mecanismoInicial.L_scaled 0).bind
        Snapshot.D = some ((0 : ℝ), (0 : ℝ))
    ∧ (resolver_cinematica rfGarbage mecanismoInicial.L_scaled 0).bind
        Snapshot.D ≠ none
    ∧ 1e-6 * mecanismoInicial.escala
        < |(ecuaciones_D (puntoC mecanismoInicial.L_scaled 0)
            (puntoB mecanismoInicial.L_scaled) mecanismoInicial.L_scaled
            ((0 : ℝ), (0 : ℝ))).1| := by
  have h1 : (resolver_cinematica rfGarbage mecanismoInicial.L_scaled 0).bind
      Snapshot.D = some ((0 : ℝ), (0 : ℝ)) := rfl
  refine ⟨h1, by rw [h1]; simp, ?_⟩
  have hC : puntoC mecanismoInicial.L_scaled 0 = ((190 : ℝ), (0 : ℝ)) := by
    rw [puntoC, puntoA]
    rw [show mecanismoInicial.L_scaled.a = 38 * 5 from rfl]
    rw [Real.cos_zero, Real.sin_zero, Prod.mk_add_mk]
    norm_num
  have hres : (ecuaciones_D (puntoC mecanismoInicial.L_scaled 0)
      (puntoB mecanismoInicial.L_scaled) mecanismoInicial.L_scaled
      ((0 : ℝ), (0 : ℝ))).1
      = norma (((0 : ℝ), (0 : ℝ)) - ((190 : ℝ), (0 : ℝ)))
        - mecanismoInicial.L_scaled.b := by
    rw [ecuaciones_D, hC]
  have hnorm : norma (((0 : ℝ), (0 : ℝ)) - ((190 : ℝ), (0 : ℝ))) = 190 := by
    rw [show (((0 : ℝ), (0 : ℝ)) : Punto) - ((190 : ℝ), (0 : ℝ))
        = ((-190 : ℝ), (0 : ℝ)) by rw [Prod.mk_sub_mk]; norm_num]
    rw [norma]
    rw [show ((-190 : ℝ)) ^ 2 + ((0 : ℝ)) ^ 2 = 190 ^ 2 by norm_num]
    exact Real.sqrt_sq (by norm_num)
  rw [hres, hnorm, show mecanismoInicial.L_scaled.b = 41.5 * 5 from rfl,
    show mecanismoInicial.escala = 5 from rfl]
  rw [show (190 : ℝ) - 41.5 * 5 = -(17.5) by norm_num, abs_neg,
    abs_of_pos (by norm_num : (0 : ℝ) < 17.5)]
  norm_num
